import Mathlib

/-!
# Verification of the student-records data view layer

Shallow embedding of the client-side data view layer of the student
management application: the canonical record type, the Redux-style state
and reducer (`studentSlice` in the store module), the service functions
of `services/studentService.ts`, the filter/sort logic of the students
page (`filteredAndSortedStudents`, `handleSort`), and the form
validation of `components/StudentForm.tsx`.

Conventions of the embedding:
* TypeScript numbers that hold integers (`class`, `age`, `siblings`,
  the backend `uuid`) are modelled as `Int`; the parsed GPA value is a
  rational (`Rat`), with `none` standing for JavaScript `NaN`.
* The `sex` field is a string in the wire format and the TS union type
  `male | female` erases to a string at runtime, so it is a `String`.
* Asynchronous requests are modelled by a `StoreResponses` record that
  fixes the outcome (`Except String _`) of each endpoint; a thunk run
  is the pending action followed by the fulfilled or rejected action,
  exactly as `createAsyncThunk` dispatches them.
-/

/-- JavaScript falsiness of an optional string (`undefined` or `""`). -/
def falsyStr : Option String → Bool
  | none => true
  | some s => s == ""

/-- JavaScript falsiness of an optional integer number (`undefined` or `0`;
the `NaN` case of a TS `number` cannot arise for these integer fields). -/
def falsyInt : Option Int → Bool
  | none => true
  | some n => n == 0

/-- JavaScript `String.prototype.trim`: strip leading and trailing
whitespace. -/
def jsTrim (s : String) : String :=
  (((s.toList.dropWhile (fun c => c.isWhitespace)).reverse.dropWhile
      (fun c => c.isWhitespace)).reverse).asString

/-- Value of a list of decimal digit characters. -/
def natOfDigits (ds : List Char) : Nat :=
  ds.foldl (fun acc c => acc * 10 + (c.toNat - 48)) 0

/-- Exponent part of a JavaScript float literal, after the `e`/`E` marker:
optional sign then digits; a missing or malformed exponent contributes 0
(as `parseFloat` stops before the marker in that case). -/
def expPart (cs : List Char) : Int :=
  match cs with
  | '+' :: r => (natOfDigits (r.takeWhile (fun c => c.isDigit)) : Int)
  | '-' :: r => -(natOfDigits (r.takeWhile (fun c => c.isDigit)) : Int)
  | r => (natOfDigits (r.takeWhile (fun c => c.isDigit)) : Int)

/-- Model of JavaScript `parseFloat`: skip leading whitespace, optional
sign, longest prefix `digits [. digits] [e sign digits]`; `none` models
`NaN` (no digit in the mantissa). The `Infinity` literal, which cannot be
a rational, is also mapped to `none`; every caller in the source rejects
both `NaN` and out-of-range values identically, so the two readings agree
at every use site. -/
def jsParseFloat (s : String) : Option Rat :=
  let cs := s.toList.dropWhile (fun c => c.isWhitespace)
  let signAndRest : Rat × List Char :=
    match cs with
    | '-' :: rest => (-1, rest)
    | '+' :: rest => (1, rest)
    | _ => (1, cs)
  let sign := signAndRest.1
  let cs1 := signAndRest.2
  let intPart := cs1.takeWhile (fun c => c.isDigit)
  let rest1 := cs1.dropWhile (fun c => c.isDigit)
  let fracAndRest : List Char × List Char :=
    match rest1 with
    | '.' :: r => (r.takeWhile (fun c => c.isDigit), r.dropWhile (fun c => c.isDigit))
    | _ => ([], rest1)
  let fracPart := fracAndRest.1
  let rest2 := fracAndRest.2
  if intPart.isEmpty && fracPart.isEmpty then none
  else
    let mantissa : Rat :=
      (natOfDigits intPart : Rat) + (natOfDigits fracPart : Rat) / ((10 : Rat) ^ fracPart.length)
    let exponent : Int :=
      match rest2 with
      | 'e' :: r => expPart r
      | 'E' :: r => expPart r
      | _ => 0
    some (sign * mantissa * (10 : Rat) ^ exponent)

/-- Frontend student record (`types/student.ts`, interface `Student`).
`gpa` is kept as a string for form round-tripping. -/
structure Student where
  id : String
  name : String
  «class» : Int
  sex : String
  age : Int
  siblings : Int
  gpa : String
deriving DecidableEq, Inhabited

/-- Create/update request payload (`types/student.ts`,
interface `CreateStudentRequest`; `UpdateStudentRequest` is identical). -/
structure CreateStudentRequest where
  name : String
  «class» : Int
  sex : String
  age : Int
  siblings : Int
  gpa : String
deriving DecidableEq, Inhabited

/-- Redux state of the student slice (`types/student.ts`,
interface `StudentState`). -/
structure StudentState where
  students : List Student
  recentLookup : Option Student
  loading : Bool
  error : Option String
deriving DecidableEq, Inhabited

/-- Wire-format student returned by the backend (`studentService.ts`,
interface `BackendStudent`). The wire `gpa` may be a number or a string;
`transformStudentFromBackend` applies `String(gpa)` which coerces either
to text, and every claim depends only on that resulting text, so the
wire value is modelled by the string it coerces to. -/
structure BackendStudent where
  uuid : Int
  name : String
  «class» : Int
  sex : String
  age : Int
  siblings : Int
  gpa : String
deriving DecidableEq, Inhabited

/-- Outbound wire payload produced by `transformStudentToBackend`
(`gpa` is `parseFloat` of the form string; `none` models `NaN`). -/
structure BackendDraft where
  name : String
  «class» : Int
  sex : String
  age : Int
  siblings : Int
  gpa : Option Rat
deriving DecidableEq, Inhabited

/-- Function `transformStudentFromBackend` of `studentService.ts`: stringify the
numeric `uuid` into `id` and keep `gpa` as text. -/
def transformStudentFromBackend (backendStudent : BackendStudent) : Student :=
  { id := toString backendStudent.uuid
    name := backendStudent.name
    «class» := backendStudent.«class»
    sex := backendStudent.sex
    age := backendStudent.age
    siblings := backendStudent.siblings
    gpa := backendStudent.gpa }

/-- Function `transformStudentToBackend` of `studentService.ts`: parse the GPA
string into a number; no validation happens here. -/
def transformStudentToBackend (studentData : CreateStudentRequest) : BackendDraft :=
  { name := studentData.name
    «class» := studentData.«class»
    sex := studentData.sex
    age := studentData.age
    siblings := studentData.siblings
    gpa := jsParseFloat studentData.gpa }

/-- Fixed outcomes of the five REST endpoints for one execution:
the result each request would produce when awaited. -/
structure StoreResponses where
  listResult : Except String (List BackendStudent)
  getResult : String → Except String BackendStudent
  createResult : BackendDraft → Except String Int
  updateResult : String → BackendDraft → Except String Unit
  deleteResult : String → Except String Unit

namespace studentService

/-- Service `getAllStudents` of `studentService.ts`: GET `/students`, then map
the wire records through `transformStudentFromBackend`. -/
def getAllStudents (store : StoreResponses) : Except String (List Student) :=
  (store.listResult).map (fun bs => bs.map transformStudentFromBackend)

/-- Service `getStudentById` of `studentService.ts`: GET the student and
transform the wire record. -/
def getStudentById (store : StoreResponses) (id : String) : Except String Student :=
  (store.getResult id).map transformStudentFromBackend

/-- Service `createStudent` of `studentService.ts`: POST the transformed draft,
receive `{ uuid }` only, then a mandatory follow-up `getStudentById` on
the stringified uuid. -/
def createStudent (store : StoreResponses) (studentData : CreateStudentRequest) :
    Except String Student := do
  let createdUuid ← store.createResult (transformStudentToBackend studentData)
  getStudentById store (toString createdUuid)

/-- Service `updateStudent` of `studentService.ts`: PUT the transformed draft,
then re-fetch the record by id. -/
def updateStudent (store : StoreResponses) (id : String)
    (studentData : CreateStudentRequest) : Except String Student := do
  let _ ← store.updateResult id (transformStudentToBackend studentData)
  getStudentById store id

/-- Service `deleteStudent` of `studentService.ts`: DELETE the student. -/
def deleteStudent (store : StoreResponses) (id : String) : Except String Unit :=
  store.deleteResult id

end studentService

/-- Actions handled by the student slice: the pending / fulfilled /
rejected phases of the five async thunks plus the two plain reducers
(`setRecentLookup`, `clearError`). -/
inductive SliceAction where
  | fetchStudentsPending
  | fetchStudentsFulfilled (payload : List Student)
  | fetchStudentsRejected (msg : String)
  | fetchStudentByIdPending
  | fetchStudentByIdFulfilled (payload : Student)
  | fetchStudentByIdRejected (msg : String)
  | createStudentPending
  | createStudentFulfilled (payload : Student)
  | createStudentRejected (msg : String)
  | updateStudentPending
  | updateStudentFulfilled (payload : Student)
  | updateStudentRejected (msg : String)
  | deleteStudentPending
  | deleteStudentFulfilled (payload : String)
  | deleteStudentRejected (msg : String)
  | setRecentLookup (payload : Student)
  | clearError
deriving DecidableEq

/-- The student slice reducer (`studentSlice`, `reducers` and
`extraReducers`), one case per handled action, each mutating exactly the
fields the source mutates. -/
def studentReducer (state : StudentState) (action : SliceAction) : StudentState :=
  match action with
  | .fetchStudentsPending => { state with loading := true, error := none }
  | .fetchStudentsFulfilled payload => { state with loading := false, students := payload }
  | .fetchStudentsRejected msg => { state with loading := false, error := some msg }
  | .fetchStudentByIdPending => { state with loading := true, error := none }
  | .fetchStudentByIdFulfilled payload =>
      { state with loading := false, recentLookup := some payload }
  | .fetchStudentByIdRejected msg => { state with loading := false, error := some msg }
  | .createStudentPending => { state with loading := true, error := none }
  | .createStudentFulfilled payload =>
      { state with loading := false, students := state.students ++ [payload] }
  | .createStudentRejected msg => { state with loading := false, error := some msg }
  | .updateStudentPending => { state with loading := true, error := none }
  | .updateStudentFulfilled payload =>
      match state.students.findIdx? (fun s => s.id == payload.id) with
      | some i => { state with loading := false, students := state.students.set i payload }
      | none => { state with loading := false }
  | .updateStudentRejected msg => { state with loading := false, error := some msg }
  | .deleteStudentPending => { state with loading := true, error := none }
  | .deleteStudentFulfilled payload =>
      { state with loading := false
                   students := state.students.filter (fun s => s.id != payload) }
  | .deleteStudentRejected msg => { state with loading := false, error := some msg }
  | .setRecentLookup payload => { state with recentLookup := some payload }
  | .clearError => { state with error := none }

/-- The `fetchStudents` thunk run to completion against fixed store
responses: pending action, then fulfilled or rejected. -/
def runFetchStudents (store : StoreResponses) (state : StudentState) : StudentState :=
  let s1 := studentReducer state .fetchStudentsPending
  match studentService.getAllStudents store with
  | .ok v => studentReducer s1 (.fetchStudentsFulfilled v)
  | .error m => studentReducer s1 (.fetchStudentsRejected m)

/-- The `fetchStudentById` thunk run to completion. -/
def runFetchStudentById (store : StoreResponses) (state : StudentState)
    (id : String) : StudentState :=
  let s1 := studentReducer state .fetchStudentByIdPending
  match studentService.getStudentById store id with
  | .ok v => studentReducer s1 (.fetchStudentByIdFulfilled v)
  | .error m => studentReducer s1 (.fetchStudentByIdRejected m)

/-- The `createStudent` thunk run to completion. -/
def runCreateStudent (store : StoreResponses) (state : StudentState)
    (studentData : CreateStudentRequest) : StudentState :=
  let s1 := studentReducer state .createStudentPending
  match studentService.createStudent store studentData with
  | .ok v => studentReducer s1 (.createStudentFulfilled v)
  | .error m => studentReducer s1 (.createStudentRejected m)

/-- The `updateStudent` thunk run to completion. -/
def runUpdateStudent (store : StoreResponses) (state : StudentState)
    (id : String) (studentData : CreateStudentRequest) : StudentState :=
  let s1 := studentReducer state .updateStudentPending
  match studentService.updateStudent store id studentData with
  | .ok v => studentReducer s1 (.updateStudentFulfilled v)
  | .error m => studentReducer s1 (.updateStudentRejected m)

/-- The `deleteStudent` thunk run to completion (on success the thunk
returns the id it was given). -/
def runDeleteStudent (store : StoreResponses) (state : StudentState)
    (id : String) : StudentState :=
  let s1 := studentReducer state .deleteStudentPending
  match studentService.deleteStudent store id with
  | .ok _ => studentReducer s1 (.deleteStudentFulfilled id)
  | .error m => studentReducer s1 (.deleteStudentRejected m)

/-- Predicate `charsStartsWith hay needle`: `needle` is a prefix of `hay`
(character-list core of JavaScript `String.prototype.startsWith`). -/
def charsStartsWith : List Char → List Char → Bool
  | _, [] => true
  | [], _ :: _ => false
  | h :: hs, n :: ns => h == n && charsStartsWith hs ns

/-- Predicate `charsContains hay needle`: `needle` occurs contiguously in `hay`
(character-list core of JavaScript `String.prototype.includes`). -/
def charsContains : List Char → List Char → Bool
  | [], needle => needle.isEmpty
  | h :: hs, needle => charsStartsWith (h :: hs) needle || charsContains hs needle

/-- JavaScript `hay.includes(needle)` on strings. -/
def strIncludes (hay needle : String) : Bool :=
  charsContains hay.toList needle.toList

/-- Filter configuration of the students page (`types/student.ts`,
interface `FilterConfig`): every predicate optional; the page stores
`undefined` (here `none`) for a cleared numeric field and may hold `""`
for the `name`/`sex` text fields, which the predicate treats as absent
via JavaScript falsiness. -/
structure FilterConfig where
  name : Option String
  «class» : Option Int
  sex : Option String
  minAge : Option Int
  maxAge : Option Int
deriving DecidableEq, Inhabited

/-- The filter predicate applied to each student inside
`filteredAndSortedStudents` (StudentsPage): `!filters.f || match` for
each field, all conjoined. A falsy filter value (`undefined`, `""`, `0`)
disables its predicate. -/
def studentPasses (filters : FilterConfig) (student : Student) : Bool :=
  let nameMatch :=
    falsyStr filters.name ||
      strIncludes student.name.toLower ((filters.name.getD "").toLower)
  let classMatch :=
    falsyInt filters.«class» || student.«class» == (filters.«class»).getD 0
  let sexMatch :=
    falsyStr filters.sex || student.sex == (filters.sex).getD ""
  let ageMatch :=
    (falsyInt filters.minAge || decide ((filters.minAge).getD 0 ≤ student.age)) &&
      (falsyInt filters.maxAge || decide (student.age ≤ (filters.maxAge).getD 0))
  nameMatch && classMatch && sexMatch && ageMatch

/-- Sortable column keys (`keyof Student`). -/
inductive StudentKey where
  | id
  | name
  | «class»
  | sex
  | age
  | siblings
  | gpa
deriving DecidableEq, Inhabited

/-- Sort direction of `SortConfig`. -/
inductive SortDirection where
  | asc
  | desc
deriving DecidableEq, Inhabited

/-- Sort configuration (`types/student.ts`, interface `SortConfig`). -/
structure SortConfig where
  key : StudentKey
  direction : SortDirection
deriving DecidableEq, Inhabited

/-- Transition `handleSort` of StudentsPage: same key while ascending flips to
descending; anything else (same key descending, or a new key) goes to
ascending on the requested key. -/
def handleSort (prev : SortConfig) (key : StudentKey) : SortConfig :=
  { key := key
    direction :=
      if prev.key = key ∧ prev.direction = .asc then .desc else .asc }

/-- Runtime value of a student field: TS erases the row to string and
number fields, which is what the sort comparator inspects with
`typeof`. -/
inductive FieldValue where
  | str (s : String)
  | num (n : Int)
deriving DecidableEq

/-- Indexing `student[key]` as the comparator does. -/
def getField (student : Student) : StudentKey → FieldValue
  | .id => .str student.id
  | .name => .str student.name
  | .«class» => .num student.«class»
  | .sex => .str student.sex
  | .age => .num student.age
  | .siblings => .num student.siblings
  | .gpa => .str student.gpa

/-- Lexicographic three-way comparison of character lists by character
code. -/
def charListCompare : List Char → List Char → Int
  | [], [] => 0
  | [], _ :: _ => -1
  | _ :: _, [] => 1
  | a :: as, b :: bs =>
      if a.toNat < b.toNat then -1
      else if b.toNat < a.toNat then 1
      else charListCompare as bs

/-- Model of `a.localeCompare(b)`: sign of the lexicographic comparison
of the two strings (the runtime's collation is modelled by the character
order). -/
def localeCompare (a b : String) : Int :=
  charListCompare a.toList b.toList

/-- The sort comparator inside `filteredAndSortedStudents`: strings via
`localeCompare`, numbers via subtraction, direction swapping the operand
order; mixed types fall through to 0. -/
def compareStudents (sortConfig : SortConfig) (a b : Student) : Int :=
  match getField a sortConfig.key, getField b sortConfig.key with
  | .str x, .str y =>
      if sortConfig.direction = .asc then localeCompare x y else localeCompare y x
  | .num x, .num y =>
      if sortConfig.direction = .asc then x - y else y - x
  | _, _ => 0

/-- Per-field validation errors of `StudentForm.validateForm` (a key is
present exactly when the source put a message into `newErrors`). -/
structure FormErrors where
  name : Option String := none
  «class» : Option String := none
  age : Option String := none
  siblings : Option String := none
  gpa : Option String := none
deriving DecidableEq, Inhabited

/-- Validator `validateForm` of `StudentForm.tsx`: name must be nonempty after
trimming, class in [1,12], age in [1,100], siblings in [0,20], GPA
nonempty after trimming and parsing to a number in [0,10]. -/
def validateForm (formData : CreateStudentRequest) : FormErrors :=
  { name := if jsTrim formData.name = "" then some "Name is required" else none
    «class» :=
      if formData.«class» < 1 ∨ formData.«class» > 12 then
        some "Class must be between 1 and 12"
      else none
    age :=
      if formData.age < 1 ∨ formData.age > 100 then
        some "Age must be between 1 and 100"
      else none
    siblings :=
      if formData.siblings < 0 ∨ formData.siblings > 20 then
        some "Siblings must be between 0 and 20"
      else none
    gpa :=
      if jsTrim formData.gpa = "" then some "GPA is required"
      else
        match jsParseFloat formData.gpa with
        | none => some "GPA must be a number between 0 and 10"
        | some gpaNum =>
            if gpaNum < 0 ∨ gpaNum > 10 then
              some "GPA must be a number between 0 and 10"
            else none }

/-- Check `Object.keys(newErrors).length === 0`: the form is valid when no
field produced an error. -/
def formIsValid (formData : CreateStudentRequest) : Bool :=
  let e := validateForm formData
  e.name.isNone && e.«class».isNone && e.age.isNone &&
    e.siblings.isNone && e.gpa.isNone

/-- Handler `handleSubmit` of `StudentForm.tsx`: `onSubmit(formData)` runs only
when `validateForm()` returned true; the result is the draft handed to
the submit callback, or `none` when validation failed. -/
def handleSubmit (formData : CreateStudentRequest) : Option CreateStudentRequest :=
  if formIsValid formData then some formData else none

/-- The create path from form submission: an invalid draft never reaches
`dispatch(createStudent(...))`, so the slice state is untouched; a valid
draft runs the create thunk. -/
def submitCreate (store : StoreResponses) (state : StudentState)
    (formData : CreateStudentRequest) : StudentState :=
  match handleSubmit formData with
  | some draft => runCreateStudent store state draft
  | none => state

/-- Being a prefix is what `charsStartsWith` decides. -/
theorem charsStartsWith_iff (l n : List Char) :
    charsStartsWith l n = true ↔ n <+: l := by
  induction l generalizing n with
  | nil =>
      cases n with
      | nil => simp [charsStartsWith]
      | cons c cs => simp [charsStartsWith]
  | cons h t ih =>
      cases n with
      | nil => simp [charsStartsWith]
      | cons c cs =>
          simp only [charsStartsWith, Bool.and_eq_true, beq_iff_eq, ih,
            List.cons_prefix_cons]
          constructor
          · rintro ⟨rfl, h2⟩
            exact ⟨rfl, h2⟩
          · rintro ⟨rfl, h2⟩
            exact ⟨rfl, h2⟩

/-- Occurring contiguously is what `charsContains` decides. -/
theorem charsContains_iff (l n : List Char) :
    charsContains l n = true ↔ n <:+: l := by
  induction l with
  | nil =>
      simp [charsContains, List.isEmpty_iff]
  | cons h t ih =>
      simp [charsContains, charsStartsWith_iff, ih, List.infix_cons_iff]

/-- Substring containment is what `strIncludes` decides. -/
theorem strIncludes_iff (hay needle : String) :
    strIncludes hay needle = true ↔ needle.toList <:+: hay.toList := by
  simp [strIncludes, charsContains_iff]

/-- Swapping the arguments of `charListCompare` negates the result. -/
theorem charListCompare_swap (a b : List Char) :
    charListCompare b a = -charListCompare a b := by
  induction a generalizing b with
  | nil =>
      cases b with
      | nil => simp [charListCompare]
      | cons y ys => simp [charListCompare]
  | cons x xs ih =>
      cases b with
      | nil => simp [charListCompare]
      | cons y ys =>
          simp only [charListCompare]
          rcases Nat.lt_trichotomy x.toNat y.toNat with h | h | h
          · simp [h, Nat.lt_asymm h]
          · simp [h, Nat.lt_irrefl, ih ys]
          · simp [h, Nat.lt_asymm h]

/-- Swapping the arguments of `localeCompare` negates the result. -/
theorem localeCompare_swap (a b : String) :
    localeCompare b a = -localeCompare a b :=
  charListCompare_swap a.toList b.toList

/-- Wire record of the sample student Alice. -/
def aliceWire : BackendStudent :=
  { uuid := 1, name := "Alice", «class» := 5, sex := "female", age := 11
    siblings := 1, gpa := "8.5" }

/-- Wire record of the sample student Bob. -/
def bobWire : BackendStudent :=
  { uuid := 2, name := "Bob", «class» := 5, sex := "male", age := 12
    siblings := 0, gpa := "7.0" }

/-- Transformed in-memory record of Alice. -/
def aliceStudent : Student := transformStudentFromBackend aliceWire

/-- Transformed in-memory record of Bob. -/
def bobStudent : Student := transformStudentFromBackend bobWire

/-- Draft that creates Bob. -/
def bobDraft : CreateStudentRequest :=
  { name := "Bob", «class» := 5, sex := "male", age := 12, siblings := 0, gpa := "7.0" }

/-- Store whose responses all succeed: it holds Bob under id 2 and
assigns id 2 to a created record. -/
def demoStore : StoreResponses :=
  { listResult := .ok [bobWire]
    getResult := fun id => if id == "2" then .ok bobWire else .error "Request failed with status code 404"
    createResult := fun _ => .ok 2
    updateResult := fun _ _ => .ok ()
    deleteResult := fun _ => .ok () }

/-- Store whose requests all fail. -/
def failStore : StoreResponses :=
  { listResult := .error "Network Error"
    getResult := fun _ => .error "Network Error"
    createResult := fun _ => .error "Network Error"
    updateResult := fun _ _ => .error "Network Error"
    deleteResult := fun _ => .error "Network Error" }

/-- Sample slice state holding Alice in the list and Bob as the recent
lookup. -/
def demoState : StudentState :=
  { students := [aliceStudent], recentLookup := some bobStudent
    loading := false, error := none }

/-- C7: the sort-toggle transition yields the requested key with
descending direction exactly when the current key already is the
requested key and the direction is ascending, and ascending otherwise;
in particular from (age, asc) requesting age gives (age, desc), and
then requesting name gives (name, asc). -/
theorem handleSort_toggle (prev : SortConfig) (key : StudentKey) :
    handleSort prev key =
      (if prev.key = key ∧ prev.direction = .asc then
        { key := key, direction := .desc }
      else
        { key := key, direction := .asc }) ∧
    handleSort { key := .age, direction := .asc } .age
      = { key := .age, direction := .desc } ∧
    handleSort (handleSort { key := .age, direction := .asc } .age) .name
      = { key := .name, direction := .asc } := by
  refine ⟨?_, by decide, by decide⟩
  by_cases h : prev.key = key ∧ prev.direction = .asc
  · simp [handleSort, h]
  · simp [handleSort, h]

/-- C10: a falsy filter value — empty-string name or sex, or 0 for
class, minAge or maxAge — behaves exactly like an absent predicate, and
a filter whose only entry is maxAge = 0 passes every record (it imposes
no upper age bound). -/
theorem falsy_filter_is_absent (f : FilterConfig) (s : Student) :
    studentPasses { f with name := some "" } s
      = studentPasses { f with name := none } s ∧
    studentPasses { f with sex := some "" } s
      = studentPasses { f with sex := none } s ∧
    studentPasses { f with «class» := some 0 } s
      = studentPasses { f with «class» := none } s ∧
    studentPasses { f with minAge := some 0 } s
      = studentPasses { f with minAge := none } s ∧
    studentPasses { f with maxAge := some 0 } s
      = studentPasses { f with maxAge := none } s ∧
    studentPasses
      { name := none, «class» := none, sex := none, minAge := none
        maxAge := some 0 } s = true := by
  refine ⟨?_, ?_, ?_, ?_, ?_, ?_⟩ <;>
    simp [studentPasses, falsyStr, falsyInt]

/-- Sample student whose GPA text is "10". -/
def gpaTenStudent : Student :=
  { id := "3", name := "Cara", «class» := 6, sex := "female", age := 13
    siblings := 2, gpa := "10" }

/-- Sample student whose GPA text is "9". -/
def gpaNineStudent : Student :=
  { id := "4", name := "Dan", «class» := 6, sex := "male", age := 13
    siblings := 2, gpa := "9" }

/-- C8: the comparator compares the gpa key by the text of the `gpa`
field (lexicographic string comparison), the numeric keys class, age and
siblings by numeric difference, and the descending direction negates the
ascending comparator; concretely, gpa "10" sorts before gpa "9" although
its parsed numeric value 10 exceeds 9. -/
theorem gpa_sorts_as_text (a b : Student) :
    compareStudents { key := .gpa, direction := .asc } a b
      = localeCompare a.gpa b.gpa ∧
    compareStudents { key := .age, direction := .asc } a b = a.age - b.age ∧
    compareStudents { key := .«class», direction := .asc } a b
      = a.«class» - b.«class» ∧
    compareStudents { key := .siblings, direction := .asc } a b
      = a.siblings - b.siblings ∧
    (∀ key, compareStudents { key := key, direction := .desc } a b
      = -compareStudents { key := key, direction := .asc } a b) ∧
    compareStudents { key := .gpa, direction := .asc }
      gpaTenStudent gpaNineStudent = -1 ∧
    jsParseFloat gpaTenStudent.gpa = some 10 ∧
    jsParseFloat gpaNineStudent.gpa = some 9 := by
  refine ⟨rfl, rfl, rfl, rfl, ?_, by decide, ?_, ?_⟩
  · intro key
    cases key <;> simp [compareStudents, getField] <;>
      exact localeCompare_swap _ _
  · simp [gpaTenStudent, jsParseFloat, natOfDigits, expPart]
  · simp [gpaNineStudent, jsParseFloat, natOfDigits, expPart]

/-- C5: a successful delete of the recently looked-up record's id leaves
the recentLookup slot untouched while removing every element carrying
that identifier from the records list. -/
theorem delete_preserves_recentLookup (store : StoreResponses)
    (state : StudentState) (R : Student)
    (hlook : state.recentLookup = some R)
    (hok : store.deleteResult R.id = .ok ()) :
    (runDeleteStudent store state R.id).recentLookup = some R ∧
    R ∉ (runDeleteStudent store state R.id).students ∧
    ∀ s ∈ (runDeleteStudent store state R.id).students, s.id ≠ R.id := by
  unfold runDeleteStudent studentService.deleteStudent
  rw [hok]
  refine ⟨by simp [studentReducer, hlook], ?_, ?_⟩
  · intro hmem
    simp [studentReducer, List.mem_filter] at hmem
  · intro s hmem
    simp [studentReducer, List.mem_filter] at hmem
    exact hmem.2

/-- C5 witness: deleting Bob, the current recent lookup, against a store
that accepts the delete keeps Bob in the slot and leaves a record list
free of his id. -/
theorem delete_preserves_recentLookup_spot :
    (runDeleteStudent demoStore demoState bobStudent.id).recentLookup
        = some bobStudent ∧
    bobStudent ∉ (runDeleteStudent demoStore demoState bobStudent.id).students ∧
    ∀ s ∈ (runDeleteStudent demoStore demoState bobStudent.id).students,
      s.id ≠ bobStudent.id :=
  delete_preserves_recentLookup demoStore demoState bobStudent rfl rfl

/-- C4: whichever of the five operations fails, the completed run sets
the error message, clears the loading flag, and leaves every other state
field — the records list and the recent lookup — at its pre-call value. -/
theorem failure_leaves_state_intact (store : StoreResponses)
    (st : StudentState) (id : String) (d : CreateStudentRequest) (m : String) :
    (store.listResult = .error m →
        runFetchStudents store st = { st with loading := false, error := some m }) ∧
    (store.getResult id = .error m →
        runFetchStudentById store st id
          = { st with loading := false, error := some m }) ∧
    (studentService.createStudent store d = .error m →
        runCreateStudent store st d
          = { st with loading := false, error := some m }) ∧
    (studentService.updateStudent store id d = .error m →
        runUpdateStudent store st id d
          = { st with loading := false, error := some m }) ∧
    (store.deleteResult id = .error m →
        runDeleteStudent store st id
          = { st with loading := false, error := some m }) := by
  refine ⟨?_, ?_, ?_, ?_, ?_⟩
  · intro h
    unfold runFetchStudents studentService.getAllStudents
    rw [h]
    rfl
  · intro h
    unfold runFetchStudentById studentService.getStudentById
    rw [h]
    rfl
  · intro h
    unfold runCreateStudent
    rw [h]
    rfl
  · intro h
    unfold runUpdateStudent
    rw [h]
    rfl
  · intro h
    unfold runDeleteStudent studentService.deleteStudent
    rw [h]
    rfl

/-- C4 witness: against a store whose five endpoints all fail with a
network error, each operation run from the sample state ends with the
message recorded, loading off, and the records and lookup unchanged. -/
theorem failure_leaves_state_intact_spot :
    (runFetchStudents failStore demoState
        = { demoState with loading := false, error := some "Network Error" }) ∧
    (runFetchStudentById failStore demoState "2"
        = { demoState with loading := false, error := some "Network Error" }) ∧
    (runCreateStudent failStore demoState bobDraft
        = { demoState with loading := false, error := some "Network Error" }) ∧
    (runUpdateStudent failStore demoState "2" bobDraft
        = { demoState with loading := false, error := some "Network Error" }) ∧
    (runDeleteStudent failStore demoState "2"
        = { demoState with loading := false, error := some "Network Error" }) := by
  obtain ⟨h1, h2, h3, h4, h5⟩ :=
    failure_leaves_state_intact failStore demoState "2" bobDraft "Network Error"
  exact ⟨h1 rfl, h2 rfl, h3 rfl, h4 rfl, h5 rfl⟩

/-- State reached by the interleaving: create dispatched (pending),
loadAll dispatched (pending), loadAll response reduced first, create
completion reduced last, starting from the empty initial state. -/
def interleavedState : StudentState :=
  studentReducer
    (studentReducer
      (studentReducer
        (studentReducer
          { students := [], recentLookup := none, loading := false, error := none }
          .createStudentPending)
        .fetchStudentsPending)
      (.fetchStudentsFulfilled [bobStudent]))
    (.createStudentFulfilled bobStudent)

/-- C1 counterexample: an interleaving of loadAll with a concurrent
create does produce duplicate identifiers. Both thunks run against the
same store (which already holds Bob under id 2, the id the create is
assigned): each dispatches its pending action at call time, the loadAll
response — already including the new record — is reduced first, and the
create completion is reduced last. The slice pushes the created record
unconditionally, so the final list carries id "2" twice, refuting the
claim that no such interleaving can produce duplicate identifiers. -/
theorem create_after_loadAll_duplicates :
    studentService.getAllStudents demoStore = .ok [bobStudent] ∧
    studentService.createStudent demoStore bobDraft = .ok bobStudent ∧
    interleavedState.students.map Student.id = ["2", "2"] ∧
    ¬ (interleavedState.students.map Student.id).Nodup := by
  exact ⟨rfl, rfl, by decide, by decide⟩

/-- C1 amended: after a successful loadAll the records list is exactly
the transformed store list of the response, but the create-completion
handler appends its payload unconditionally, so a create completing
after a loadAll whose response already contained the new record appends
a second copy; uniqueness of identifiers is not preserved under such
interleavings. -/
theorem loadAll_replaces_create_appends (store : StoreResponses)
    (st : StudentState) (bs : List BackendStudent)
    (hlist : store.listResult = .ok bs) :
    (runFetchStudents store st).students = bs.map transformStudentFromBackend ∧
    ∀ (s : StudentState) (r : Student),
      (studentReducer s (.createStudentFulfilled r)).students
        = s.students ++ [r] := by
  refine ⟨?_, fun s r => rfl⟩
  unfold runFetchStudents studentService.getAllStudents
  rw [hlist]
  rfl

/-- C1 amended witness: the demo store's list response [Bob] lands
verbatim in the records, and a create completion appends to whatever
list is present. -/
theorem loadAll_replaces_create_appends_spot :
    (runFetchStudents demoStore demoState).students = [bobWire].map transformStudentFromBackend ∧
    ∀ (s : StudentState) (r : Student),
      (studentReducer s (.createStudentFulfilled r)).students
        = s.students ++ [r] :=
  loadAll_replaces_create_appends demoStore demoState [bobWire] rfl

/-- C3: once the store's create response supplies the new identifier
(and nothing more), the whole operation's outcome is exactly the
follow-up fetch-by-id's outcome; when that fetch succeeds the fetched
full record is appended to the records, and when it fails the run ends
with the error recorded and the records list unchanged. -/
theorem create_appends_iff_followup_succeeds (store : StoreResponses)
    (st : StudentState) (d : CreateStudentRequest) (uuid : Int)
    (hcreate : store.createResult (transformStudentToBackend d) = .ok uuid) :
    studentService.createStudent store d
      = (store.getResult (toString uuid)).map transformStudentFromBackend ∧
    (∀ b, store.getResult (toString uuid) = .ok b →
        (runCreateStudent store st d).students
          = st.students ++ [transformStudentFromBackend b]) ∧
    (∀ m, store.getResult (toString uuid) = .error m →
        (runCreateStudent store st d).students = st.students ∧
        (runCreateStudent store st d).error = some m) := by
  have hsvc : studentService.createStudent store d
      = (store.getResult (toString uuid)).map transformStudentFromBackend := by
    unfold studentService.createStudent studentService.getStudentById
    rw [hcreate]
    rfl
  refine ⟨hsvc, ?_, ?_⟩
  · intro b hb
    unfold runCreateStudent
    rw [hsvc, hb]
    rfl
  · intro m hm
    unfold runCreateStudent
    rw [hsvc, hm]
    exact ⟨rfl, rfl⟩

/-- C3 witness: against the demo store (create yields id 2, fetching id
2 yields Bob) the create run appends exactly the fetched record. -/
theorem create_appends_iff_followup_succeeds_spot :
    studentService.createStudent demoStore bobDraft
      = (demoStore.getResult (toString (2 : Int))).map transformStudentFromBackend ∧
    (∀ b, demoStore.getResult (toString (2 : Int)) = .ok b →
        (runCreateStudent demoStore demoState bobDraft).students
          = demoState.students ++ [transformStudentFromBackend b]) ∧
    (∀ m, demoStore.getResult (toString (2 : Int)) = .error m →
        (runCreateStudent demoStore demoState bobDraft).students
            = demoState.students ∧
        (runCreateStudent demoStore demoState bobDraft).error = some m) :=
  create_appends_iff_followup_succeeds demoStore demoState bobDraft 2 rfl

/-- C2: when an update of `id` succeeds and its re-fetch returns the
record `b` (carrying that same identifier), the completed run keeps the
records list at its previous length, replaces the element found at the
identifier's position in place, and — when no element carries the
identifier — leaves the list entirely unchanged, never appending the
fetched record. -/
theorem update_replaces_in_place (store : StoreResponses) (st : StudentState)
    (id : String) (d : CreateStudentRequest) (b : BackendStudent)
    (hput : store.updateResult id (transformStudentToBackend d) = .ok ())
    (hget : store.getResult id = .ok b)
    (hid : toString b.uuid = id) :
    (runUpdateStudent store st id d).students.length = st.students.length ∧
    (∀ i, st.students.findIdx? (fun s => s.id == id) = some i →
        (runUpdateStudent store st id d).students
          = st.students.set i (transformStudentFromBackend b)) ∧
    ((∀ s ∈ st.students, s.id ≠ id) →
        (runUpdateStudent store st id d).students = st.students) := by
  have hrun : runUpdateStudent store st id d
      = studentReducer (studentReducer st .updateStudentPending)
          (.updateStudentFulfilled (transformStudentFromBackend b)) := by
    unfold runUpdateStudent studentService.updateStudent
      studentService.getStudentById
    rw [hput, hget]
    rfl
  have hpayload : (transformStudentFromBackend b).id = id := hid
  rw [hrun]
  simp only [studentReducer, hpayload]
  refine ⟨?_, ?_, ?_⟩
  · rcases h : st.students.findIdx? (fun s => s.id == id) with _ | i <;>
      simp [h]
  · intro i hi
    simp [hi]
  · intro hall
    have hnone : st.students.findIdx? (fun s => s.id == id) = none := by
      rw [List.findIdx?_eq_none_iff]
      intro x hx
      exact beq_eq_false_iff_ne.mpr (hall x hx)
    simp [hnone]

/-- C2 witness: updating Alice's id 1 against a store that accepts the
put and re-fetches a record with uuid 1 replaces the single element at
position 0 and keeps the list length at 1. -/
theorem update_replaces_in_place_spot :
    (runUpdateStudent
        { demoStore with
            getResult := fun _ => .ok { aliceWire with name := "Alicia" } }
        demoState "1" bobDraft).students.length = demoState.students.length ∧
    (∀ i, demoState.students.findIdx? (fun s => s.id == "1") = some i →
        (runUpdateStudent
            { demoStore with
                getResult := fun _ => .ok { aliceWire with name := "Alicia" } }
            demoState "1" bobDraft).students
          = demoState.students.set i
              (transformStudentFromBackend { aliceWire with name := "Alicia" })) ∧
    ((∀ s ∈ demoState.students, s.id ≠ "1") →
        (runUpdateStudent
            { demoStore with
                getResult := fun _ => .ok { aliceWire with name := "Alicia" } }
            demoState "1" bobDraft).students = demoState.students) :=
  update_replaces_in_place
    { demoStore with getResult := fun _ => .ok { aliceWire with name := "Alicia" } }
    demoState "1" bobDraft { aliceWire with name := "Alicia" } rfl rfl rfl

/-- C9: a draft failing any field constraint — blank name, class outside
[1,12], age outside [1,100], siblings outside [0,20], or a GPA that is
blank, unparsable, or out of [0,10] — fails validation, so the submit
handler never invokes the submit callback and the slice state is left
exactly as it was: the draft never reaches the store. -/
theorem invalid_draft_never_submitted (store : StoreResponses)
    (st : StudentState) (d : CreateStudentRequest)
    (h : jsTrim d.name = "" ∨ d.«class» < 1 ∨ d.«class» > 12 ∨
         d.age < 1 ∨ d.age > 100 ∨ d.siblings < 0 ∨ d.siblings > 20 ∨
         jsTrim d.gpa = "" ∨ jsParseFloat d.gpa = none ∨
         (∃ v, jsParseFloat d.gpa = some v ∧ (v < 0 ∨ v > 10))) :
    formIsValid d = false ∧ handleSubmit d = none ∧
    submitCreate store st d = st := by
  have hval : formIsValid d = false := by
    unfold formIsValid validateForm
    rcases h with h | h | h | h | h | h | h | h | h | ⟨v, hv, hr⟩
    · simp [h]
    · simp [h]
    · simp [h]
    · simp [h]
    · simp [h]
    · simp [h]
    · simp [h]
    · simp [h]
    · by_cases ht : jsTrim d.gpa = "" <;> simp [ht, h]
    · by_cases ht : jsTrim d.gpa = "" <;> simp [ht, hv, hr]
  refine ⟨hval, ?_, ?_⟩
  · unfold handleSubmit
    rw [hval]
    rfl
  · unfold submitCreate handleSubmit
    rw [hval]
    rfl

/-- C9 witness: a draft with a whitespace-only name is rejected by
validation and submitting it leaves the sample state untouched. -/
theorem invalid_draft_never_submitted_spot :
    formIsValid { bobDraft with name := " " } = false ∧
    handleSubmit { bobDraft with name := " " } = none ∧
    submitCreate demoStore demoState { bobDraft with name := " " } = demoState :=
  invalid_draft_never_submitted demoStore demoState
    { bobDraft with name := " " } (Or.inl (by decide))

/-- Semantics of the name predicate component of `studentPasses`. -/
theorem nameMatch_iff (n : Option String) (s : Student) :
    (falsyStr n || strIncludes s.name.toLower ((n.getD "").toLower)) = true ↔
      (∀ q, n = some q → q ≠ "" → q.toLower.toList <:+: s.name.toLower.toList) := by
  rcases n with _ | q
  · simp [falsyStr]
  · by_cases hq : q = ""
    · subst hq
      simp [falsyStr]
    · simp [falsyStr, hq, strIncludes_iff]

/-- Semantics of the class predicate component of `studentPasses`. -/
theorem classMatch_iff (c : Option Int) (s : Student) :
    (falsyInt c || s.«class» == c.getD 0) = true ↔
      (∀ v, c = some v → v ≠ 0 → s.«class» = v) := by
  rcases c with _ | v
  · simp [falsyInt]
  · by_cases hv : v = 0
    · subst hv
      simp [falsyInt]
    · simp [falsyInt, hv]

/-- Semantics of the sex predicate component of `studentPasses`. -/
theorem sexMatch_iff (x : Option String) (s : Student) :
    (falsyStr x || s.sex == x.getD "") = true ↔
      (∀ v, x = some v → v ≠ "" → s.sex = v) := by
  rcases x with _ | v
  · simp [falsyStr]
  · by_cases hv : v = ""
    · subst hv
      simp [falsyStr]
    · simp [falsyStr, hv]

/-- Semantics of the minimum-age predicate component of `studentPasses`. -/
theorem minAgeMatch_iff (a : Option Int) (s : Student) :
    (falsyInt a || decide (a.getD 0 ≤ s.age)) = true ↔
      (∀ v, a = some v → v ≠ 0 → v ≤ s.age) := by
  rcases a with _ | v
  · simp [falsyInt]
  · by_cases hv : v = 0
    · subst hv
      simp [falsyInt]
    · simp [falsyInt, hv]

/-- Semantics of the maximum-age predicate component of `studentPasses`. -/
theorem maxAgeMatch_iff (b : Option Int) (s : Student) :
    (falsyInt b || decide (s.age ≤ b.getD 0)) = true ↔
      (∀ v, b = some v → v ≠ 0 → s.age ≤ v) := by
  rcases b with _ | v
  · simp [falsyInt]
  · by_cases hv : v = 0
    · subst hv
      simp [falsyInt]
    · simp [falsyInt, hv]

/-- C6: a record passes the filter iff it satisfies every present
predicate — case-insensitive substring containment for the name, exact
equality for class and sex, and inclusive bounds for the age range, each
bound constraining only its own side; absent (falsy) predicates impose
nothing, and blanking any one predicate of a filter can only let more
records through, never fewer. -/
theorem filter_is_conjunctive (f : FilterConfig) (s : Student) :
    (studentPasses f s = true ↔
      (∀ q, f.name = some q → q ≠ "" →
          q.toLower.toList <:+: s.name.toLower.toList) ∧
      (∀ c, f.«class» = some c → c ≠ 0 → s.«class» = c) ∧
      (∀ x, f.sex = some x → x ≠ "" → s.sex = x) ∧
      (∀ a, f.minAge = some a → a ≠ 0 → a ≤ s.age) ∧
      (∀ b, f.maxAge = some b → b ≠ 0 → s.age ≤ b)) ∧
    (studentPasses f s = true → studentPasses { f with name := none } s = true) ∧
    (studentPasses f s = true → studentPasses { f with «class» := none } s = true) ∧
    (studentPasses f s = true → studentPasses { f with sex := none } s = true) ∧
    (studentPasses f s = true → studentPasses { f with minAge := none } s = true) ∧
    (studentPasses f s = true → studentPasses { f with maxAge := none } s = true) := by
  have hmain : ∀ (g : FilterConfig),
      studentPasses g s = true ↔
        (∀ q, g.name = some q → q ≠ "" →
            q.toLower.toList <:+: s.name.toLower.toList) ∧
        (∀ c, g.«class» = some c → c ≠ 0 → s.«class» = c) ∧
        (∀ x, g.sex = some x → x ≠ "" → s.sex = x) ∧
        (∀ a, g.minAge = some a → a ≠ 0 → a ≤ s.age) ∧
        (∀ b, g.maxAge = some b → b ≠ 0 → s.age ≤ b) := by
    intro g
    rw [show studentPasses g s =
        ((falsyStr g.name ||
            strIncludes s.name.toLower ((g.name.getD "").toLower)) &&
          (falsyInt g.«class» || s.«class» == (g.«class»).getD 0) &&
          (falsyStr g.sex || s.sex == (g.sex).getD "") &&
          ((falsyInt g.minAge || decide ((g.minAge).getD 0 ≤ s.age)) &&
            (falsyInt g.maxAge || decide (s.age ≤ (g.maxAge).getD 0)))) from rfl]
    simp only [Bool.and_eq_true, nameMatch_iff, classMatch_iff, sexMatch_iff,
      minAgeMatch_iff, maxAgeMatch_iff]
    tauto
  refine ⟨hmain f, ?_, ?_, ?_, ?_, ?_⟩ <;>
    · intro hp
      rw [hmain] at hp ⊢
      obtain ⟨h1, h2, h3, h4, h5⟩ := hp
      exact ⟨by simp_all, by simp_all, by simp_all, by simp_all, by simp_all⟩

/-- Sample filter of the specification's conjunctivity example: name
contains "an", sex female, age within [10, 20]. -/
def demoFilter : FilterConfig :=
  { name := some "an", «class» := none, sex := some "female"
    minAge := some 10, maxAge := some 20 }

/-- C6 witness: the conjunctive characterisation and the five
predicate-removal monotonicity facts, instantiated at the sample filter
and the record Alice. -/
theorem filter_is_conjunctive_spot :
    (studentPasses demoFilter aliceStudent = true ↔
      (∀ q, demoFilter.name = some q → q ≠ "" →
          q.toLower.toList <:+: aliceStudent.name.toLower.toList) ∧
      (∀ c, demoFilter.«class» = some c → c ≠ 0 → aliceStudent.«class» = c) ∧
      (∀ x, demoFilter.sex = some x → x ≠ "" → aliceStudent.sex = x) ∧
      (∀ a, demoFilter.minAge = some a → a ≠ 0 → a ≤ aliceStudent.age) ∧
      (∀ b, demoFilter.maxAge = some b → b ≠ 0 → aliceStudent.age ≤ b)) ∧
    (studentPasses demoFilter aliceStudent = true →
      studentPasses { demoFilter with name := none } aliceStudent = true) ∧
    (studentPasses demoFilter aliceStudent = true →
      studentPasses { demoFilter with «class» := none } aliceStudent = true) ∧
    (studentPasses demoFilter aliceStudent = true →
      studentPasses { demoFilter with sex := none } aliceStudent = true) ∧
    (studentPasses demoFilter aliceStudent = true →
      studentPasses { demoFilter with minAge := none } aliceStudent = true) ∧
    (studentPasses demoFilter aliceStudent = true →
      studentPasses { demoFilter with maxAge := none } aliceStudent = true) :=
  filter_is_conjunctive demoFilter aliceStudent
